import Mathlib

/-!
Shallow embedding of the Sizing and Financial Viability Engine of
`src/app.py` (a solar photovoltaic viability simulator).  Python floats are
modelled as exact rationals; the float value inf returned for a
never-reached simple payback is modelled as the top element of `WithTop ℚ`,
and the Python string "Não alcançado" for a never-reached discounted
payback is modelled as `none : Option ℕ`.  Definition names follow the
local-variable names of the source.
-/

namespace SolarApp

/-- Connection type of the consumer unit (`tipo_conexao`, app.py line 75). -/
inductive TipoConexao
  | Monofasico
  | Bifasico
  | Trifasico
deriving DecidableEq

open TipoConexao

/-- Availability map (app.py line 106): regulated minimum chargeable monthly
energy in kWh for each connection type. -/
def mapa_disponibilidade : TipoConexao → ℚ
  | Monofasico => 30
  | Bifasico => 50
  | Trifasico => 100

/-- Monthly availability cost charged by the utility (app.py line 108). -/
def custo_disponibilidade_mensal (tipo : TipoConexao) (tarifa_energia : ℚ) : ℚ :=
  mapa_disponibilidade tipo * tarifa_energia

/-- Worst-month generation per installed kWp (app.py line 111): the minimum
of the 12 monthly `E_m` values, a pandas Series minimum written as a fold. -/
def pior_mes_geracao_por_kwp : List ℚ → ℚ
  | [] => 0
  | x :: xs => xs.foldl min x

/-- Desired monthly energy after the safety margin (app.py line 112). -/
def consumo_desejado_kwh (consumo_mensal_kwh margem_geracao_percent : ℚ) : ℚ :=
  consumo_mensal_kwh * (1 + margem_geracao_percent / 100)

/-- Recommended system size in kWp (app.py line 113); 0 when the worst-month
factor is not positive. -/
def tamanho_sistema_kwp (em : List ℚ) (consumo margem : ℚ) : ℚ :=
  if pior_mes_geracao_por_kwp em > 0 then
    consumo_desejado_kwh consumo margem / pior_mes_geracao_por_kwp em
  else 0

/-- Estimated annual generation in kWh (app.py line 114). -/
def geracao_anual_estimada (em : List ℚ) (consumo margem : ℚ) : ℚ :=
  em.sum * tamanho_sistema_kwp em consumo margem

/-- Total system cost per watt-peak (app.py line 116). -/
def custo_total_watt_pico (custo_watt_pico_modulo custo_bos_watt_pico : ℚ) : ℚ :=
  custo_watt_pico_modulo + custo_bos_watt_pico

/-- Estimated installation cost (app.py line 117), with the kW to W factor. -/
def custo_estimado_sistema (tamanho custo_modulo custo_bos : ℚ) : ℚ :=
  tamanho * custo_total_watt_pico custo_modulo custo_bos * 1000

/-- Gross annual savings (app.py line 119). -/
def economia_anual_bruta (geracao tarifa : ℚ) : ℚ :=
  geracao * tarifa

/-- Net annual savings after the availability charge (app.py line 120). -/
def economia_anual_liquida (geracao tarifa : ℚ) (tipo : TipoConexao) : ℚ :=
  economia_anual_bruta geracao tarifa - custo_disponibilidade_mensal tipo tarifa * 12

/-- Simple payback in years (app.py line 121); the float inf of the source is
modelled as the top element. -/
def payback_simples_anos (custo econ : ℚ) : WithTop ℚ :=
  if econ > 0 then ((custo / econ : ℚ) : WithTop ℚ) else ⊤

/-- Fixed annual panel degradation, 0.5 percent (app.py line 154). -/
def degradacao_paineis_anual : ℚ := 5 / 1000

/-- Loop of app.py lines 159 to 161: emit the running savings value, then
multiply it by the yearly growth factor; the argument n counts the remaining
iterations. -/
def fluxo_caixa_loop (econ fator : ℚ) : ℕ → List ℚ
  | 0 => []
  | n + 1 => econ :: fluxo_caixa_loop (econ * fator) fator n

/-- Cash-flow series of app.py lines 156 to 161: the negated installation
cost followed by 25 years of net savings compounded by tariff inflation and
panel degradation. -/
def fluxo_caixa (custo econ inflacao_energia : ℚ) : List ℚ :=
  -custo ::
    fluxo_caixa_loop econ ((1 + inflacao_energia / 100) * (1 - degradacao_paineis_anual)) 25

/-- Net present value (app.py line 163): numpy_financial npv, the sum of
entry t over (1 + rate) to the power t, entry 0 undiscounted. -/
def vpl (taxa : ℚ) (fluxo : List ℚ) : ℚ :=
  (fluxo.enum.map (fun p => p.2 / (1 + taxa) ^ p.1)).sum

/-- Discounted payback scan of app.py lines 181 to 188: the cumulative npv of
every prefix of the cash flow is computed, and the first index whose value is
strictly positive is reported; none models the string for not reached. -/
def payback_descontado_ano (taxa : ℚ) (fluxo : List ℚ) : Option ℕ :=
  (List.range fluxo.length).find? (fun ano => decide (0 < vpl taxa (fluxo.take (ano + 1))))

/-- Example 12-month profile used in concrete scenarios; its worst month is
90 kWh per kWp. -/
def perfil_exemplo : List ℚ := [90, 95, 100, 110, 120, 130, 130, 125, 115, 105, 100, 95]

/-- Degenerate 12-month profile whose worst-month factor is 0. -/
def perfil_degenerado : List ℚ := [0, 0, 0, 0, 0, 0, 0, 0, 0, 0, 0, 0]

/-- Helper: a fold of min over a list is bounded by the initial accumulator. -/
lemma foldl_min_le_init : ∀ (t : List ℚ) (a : ℚ), t.foldl min a ≤ a := by
  intro t
  induction t with
  | nil => intro a; exact le_refl a
  | cons x xs ih =>
    intro a
    calc (x :: xs).foldl min a = xs.foldl min (min a x) := rfl
    _ ≤ min a x := ih (min a x)
    _ ≤ a := min_le_left a x

/-- Helper: a fold of min over a list is bounded by every member. -/
lemma foldl_min_le_mem : ∀ (t : List ℚ) (a g : ℚ), g ∈ t → t.foldl min a ≤ g := by
  intro t
  induction t with
  | nil => intro a g hg; exact absurd hg (List.not_mem_nil g)
  | cons x xs ih =>
    intro a g hg
    rcases List.mem_cons.mp hg with h | h
    · calc (x :: xs).foldl min a = xs.foldl min (min a x) := rfl
      _ ≤ min a x := foldl_min_le_init xs (min a x)
      _ ≤ x := min_le_right a x
      _ = g := h.symm
    · exact ih (min a x) g h

/-- Helper: the worst-month factor is bounded by every monthly value. -/
lemma pior_mes_le_mem (em : List ℚ) (g : ℚ) (hg : g ∈ em) :
    pior_mes_geracao_por_kwp em ≤ g := by
  cases em with
  | nil => exact absurd hg (List.not_mem_nil g)
  | cons x xs =>
    rcases List.mem_cons.mp hg with h | h
    · simpa [pior_mes_geracao_por_kwp, h] using foldl_min_le_init xs x
    · exact foldl_min_le_mem xs x g h

/-- Helper: npv at rate zero is the plain sum of the series. -/
lemma vpl_zero (l : List ℚ) : vpl 0 l = l.sum := by
  unfold vpl
  have h : (fun p : ℕ × ℚ => p.2 / (1 + (0 : ℚ)) ^ p.1) = fun p : ℕ × ℚ => p.2 := by
    funext p
    simp
  rw [h]
  have h2 : (List.map (fun p : ℕ × ℚ => p.2) l.enum) = List.map Prod.snd l.enum := rfl
  rw [h2, List.enum_map_snd]

/-- Helper: length of the savings loop output. -/
lemma fluxo_caixa_loop_length (econ fator : ℚ) (n : ℕ) :
    (fluxo_caixa_loop econ fator n).length = n := by
  induction n generalizing econ with
  | zero => rfl
  | succ n ih => simp [fluxo_caixa_loop, ih]

/-- Helper: entry k of the savings loop output is the initial savings scaled
by the growth factor to the power k. -/
lemma fluxo_caixa_loop_getD (fator : ℚ) :
    ∀ (n k : ℕ) (econ : ℚ), k < n →
      (fluxo_caixa_loop econ fator n).getD k 0 = econ * fator ^ k := by
  intro n
  induction n with
  | zero => intro k econ hk; omega
  | succ n ih =>
    intro k econ hk
    cases k with
    | zero => simp [fluxo_caixa_loop]
    | succ k =>
      have hk2 : k < n := by omega
      calc (fluxo_caixa_loop econ fator (n + 1)).getD (k + 1) 0
          = (fluxo_caixa_loop (econ * fator) fator n).getD k 0 := rfl
      _ = econ * fator * fator ^ k := ih k (econ * fator) hk2
      _ = econ * fator ^ (k + 1) := by ring

/-- Helper: the cash-flow series has 26 entries. -/
lemma fluxo_caixa_length (custo econ inflacao : ℚ) :
    (fluxo_caixa custo econ inflacao).length = 26 := by
  simp [fluxo_caixa, fluxo_caixa_loop_length]

/-- Helper: entry k of the cash-flow series, for k between 1 and 25, is the
initial savings scaled by the growth factor to the power k minus one. -/
lemma fluxo_caixa_getD (custo econ inflacao : ℚ) (k : ℕ) (hk1 : 1 ≤ k) (hk2 : k ≤ 25) :
    (fluxo_caixa custo econ inflacao).getD k 0 =
      econ * ((1 + inflacao / 100) * (1 - degradacao_paineis_anual)) ^ (k - 1) := by
  cases k with
  | zero => omega
  | succ j =>
    have hj : j < 25 := by omega
    calc (fluxo_caixa custo econ inflacao).getD (j + 1) 0
        = (fluxo_caixa_loop econ ((1 + inflacao / 100) * (1 - degradacao_paineis_anual)) 25).getD j 0 := rfl
    _ = econ * ((1 + inflacao / 100) * (1 - degradacao_paineis_anual)) ^ j :=
        fluxo_caixa_loop_getD _ 25 j econ hj
    _ = econ * ((1 + inflacao / 100) * (1 - degradacao_paineis_anual)) ^ (j + 1 - 1) := by
        norm_num

/-- Helper: a successful find? over an initial range returns an index that
satisfies the predicate while every smaller index fails it. -/
lemma find?_range_spec : ∀ (n : ℕ) (p : ℕ → Bool) (t : ℕ),
    (List.range n).find? p = some t → p t = true ∧ ∀ s, s < t → p s = false := by
  intro n
  induction n with
  | zero =>
    intro p t h
    simp [List.range_zero] at h
  | succ n ih =>
    intro p t h
    rw [List.range_succ_eq_map] at h
    by_cases hp : p 0
    · rw [List.find?_cons_of_pos _ hp] at h
      have ht : t = 0 := (Option.some_inj.mp h).symm
      subst ht
      exact ⟨hp, fun s hs => absurd hs (Nat.not_lt_zero s)⟩
    · rw [List.find?_cons_of_neg _ hp, List.find?_map] at h
      rcases Option.map_eq_some'.mp h with ⟨u, hu, hut⟩
      have hmain := ih (p ∘ Nat.succ) u hu
      constructor
      · have : t = u + 1 := by omega
        subst this
        exact hmain.1
      · intro s hs
        cases s with
        | zero => exact Bool.eq_false_iff.mpr hp
        | succ s =>
          have : s < u := by omega
          exact hmain.2 s this

/-- Helper: a failed find? over an initial range means every index in the
range fails the predicate. -/
lemma find?_range_none (p : ℕ → Bool) (n : ℕ) (h : (List.range n).find? p = none) :
    ∀ s, s < n → p s = false := by
  intro s hs
  have := List.find?_eq_none.mp h s (List.mem_range.mpr hs)
  exact Bool.eq_false_iff.mpr this

/-- Helper: the worst month of the example profile is 90. -/
lemma pior_exemplo : pior_mes_geracao_por_kwp perfil_exemplo = 90 := by decide

/-- Helper: concrete sizing value of the spec scenario. -/
lemma tamanho_exemplo_val : tamanho_sistema_kwp perfil_exemplo 350 15 = 161 / 36 := by
  unfold tamanho_sistema_kwp
  rw [pior_exemplo, if_pos (show (90 : ℚ) > 0 by norm_num)]
  unfold consumo_desejado_kwh
  norm_num

/-- Helper: 161 / 36 rounds to 4.47 at two decimal places. -/
lemma tamanho_exemplo_aprox : |(161 : ℚ) / 36 - 447 / 100| < 1 / 200 := by
  rw [abs_of_pos (by norm_num)]
  norm_num

/-- C4: the recommended size equals consumption scaled by the margin and
divided by the worst-month factor when that factor is positive; it is
nonnegative, and it is zero exactly when the factor is nonpositive; the
scenario with consumption 350, margin 15 percent and worst month 90 gives
161 / 36 kWp, which is about 4.47. -/
theorem tamanho_sistema_spec (em : List ℚ) (consumo margem : ℚ)
    (_h12 : em.length = 12) (hc : 0 < consumo) (hm : 0 ≤ margem) :
    (0 < pior_mes_geracao_por_kwp em →
      tamanho_sistema_kwp em consumo margem
        = consumo * (1 + margem / 100) / pior_mes_geracao_por_kwp em) ∧
    0 ≤ tamanho_sistema_kwp em consumo margem ∧
    (tamanho_sistema_kwp em consumo margem = 0 ↔ pior_mes_geracao_por_kwp em ≤ 0) ∧
    tamanho_sistema_kwp perfil_exemplo 350 15 = 161 / 36 ∧
    |(161 : ℚ) / 36 - 447 / 100| < 1 / 200 := by
  have htarget : 0 < consumo_desejado_kwh consumo margem := by
    unfold consumo_desejado_kwh
    have h1 : (0 : ℚ) ≤ margem / 100 := div_nonneg hm (by norm_num)
    have h2 : (0 : ℚ) < 1 + margem / 100 := by linarith
    exact mul_pos hc h2
  refine ⟨?_, ?_, ⟨?_, ?_⟩, ?_, ?_⟩
  · intro h
    unfold tamanho_sistema_kwp
    rw [if_pos h]
    rfl
  · by_cases hp : pior_mes_geracao_por_kwp em > 0
    · unfold tamanho_sistema_kwp
      rw [if_pos hp]
      exact div_nonneg htarget.le (le_of_lt hp)
    · unfold tamanho_sistema_kwp
      rw [if_neg hp]
  · intro h0
    by_contra hgt
    push_neg at hgt
    unfold tamanho_sistema_kwp at h0
    rw [if_pos hgt] at h0
    rcases div_eq_zero_iff.mp h0 with h | h
    · exact absurd h htarget.ne'
    · exact absurd h hgt.ne'
  · intro h
    unfold tamanho_sistema_kwp
    rw [if_neg (not_lt.mpr h)]
  · exact tamanho_exemplo_val
  · exact tamanho_exemplo_aprox

/-- Witness for C4 at the spec scenario profile. -/
theorem tamanho_sistema_spec_witness :
    (0 < pior_mes_geracao_por_kwp perfil_exemplo →
      tamanho_sistema_kwp perfil_exemplo 350 15
        = 350 * (1 + 15 / 100) / pior_mes_geracao_por_kwp perfil_exemplo) ∧
    0 ≤ tamanho_sistema_kwp perfil_exemplo 350 15 ∧
    (tamanho_sistema_kwp perfil_exemplo 350 15 = 0 ↔
      pior_mes_geracao_por_kwp perfil_exemplo ≤ 0) ∧
    tamanho_sistema_kwp perfil_exemplo 350 15 = 161 / 36 ∧
    |(161 : ℚ) / 36 - 447 / 100| < 1 / 200 :=
  tamanho_sistema_spec perfil_exemplo 350 15 rfl (by norm_num) (by norm_num)

/-- C8: when the worst-month factor is positive, sizing on the worst month
meets the monthly consumption target with margin in every month of the
profile. -/
theorem dimensionamento_atende_meta (em : List ℚ) (consumo margem g : ℚ)
    (_h12 : em.length = 12) (hg : g ∈ em)
    (hw : 0 < pior_mes_geracao_por_kwp em) (hc : 0 ≤ consumo) (hm : 0 ≤ margem) :
    consumo_desejado_kwh consumo margem ≤ g * tamanho_sistema_kwp em consumo margem := by
  have hmin : pior_mes_geracao_por_kwp em ≤ g := pior_mes_le_mem em g hg
  have htarget : 0 ≤ consumo_desejado_kwh consumo margem := by
    unfold consumo_desejado_kwh
    have h1 : (0 : ℚ) ≤ margem / 100 := div_nonneg hm (by norm_num)
    have h2 : (0 : ℚ) ≤ 1 + margem / 100 := by linarith
    exact mul_nonneg hc h2
  unfold tamanho_sistema_kwp
  rw [if_pos hw, ← mul_div_assoc, le_div_iff₀ hw]
  calc consumo_desejado_kwh consumo margem * pior_mes_geracao_por_kwp em
      ≤ consumo_desejado_kwh consumo margem * g :=
        mul_le_mul_of_nonneg_left hmin htarget
  _ = g * consumo_desejado_kwh consumo margem := mul_comm _ _

/-- Witness for C8 at the spec scenario profile with the 95 kWh month. -/
theorem dimensionamento_atende_meta_witness :
    consumo_desejado_kwh 350 15 ≤ 95 * tamanho_sistema_kwp perfil_exemplo 350 15 :=
  dimensionamento_atende_meta perfil_exemplo 350 15 95 rfl (by decide)
    (by norm_num [pior_mes_geracao_por_kwp, perfil_exemplo]) (by norm_num) (by norm_num)

/-- C6: net annual savings equals annual generation times the tariff minus
12 times the monthly availability cost, the availability map being the fixed
regulated table; a negative net savings is an ordinary returned value. -/
theorem economia_anual_liquida_spec (geracao tarifa : ℚ) (tipo : TipoConexao) :
    economia_anual_liquida geracao tarifa tipo
        = geracao * tarifa - 12 * custo_disponibilidade_mensal tipo tarifa ∧
    custo_disponibilidade_mensal tipo tarifa = mapa_disponibilidade tipo * tarifa ∧
    mapa_disponibilidade Monofasico = 30 ∧
    mapa_disponibilidade Bifasico = 50 ∧
    mapa_disponibilidade Trifasico = 100 ∧
    economia_anual_liquida 0 1 Trifasico < 0 := by
  refine ⟨?_, rfl, rfl, rfl, rfl, ?_⟩
  · unfold economia_anual_liquida economia_anual_bruta custo_disponibilidade_mensal
    ring
  · norm_num [economia_anual_liquida, economia_anual_bruta,
      custo_disponibilidade_mensal, mapa_disponibilidade]

/-- C7: simple payback is the installation cost over the first-year net
savings when that savings is positive, and never (the top element, the
float inf of the source) otherwise; the definition consumes neither
inflation nor degradation, and 20000 over 2500 is exactly 8 years. -/
theorem payback_simples_spec (custo econ : ℚ) :
    (0 < econ → payback_simples_anos custo econ = ((custo / econ : ℚ) : WithTop ℚ)) ∧
    (econ ≤ 0 → payback_simples_anos custo econ = ⊤) ∧
    payback_simples_anos 20000 2500 = ((8 : ℚ) : WithTop ℚ) := by
  refine ⟨fun h => if_pos h, fun h => if_neg (not_lt.mpr h), ?_⟩
  norm_num [payback_simples_anos]

/-- Witness for C7 at the spec scenario. -/
theorem payback_simples_spec_witness :
    ((0 : ℚ) < 2500 →
      payback_simples_anos 20000 2500 = ((20000 / 2500 : ℚ) : WithTop ℚ)) ∧
    ((2500 : ℚ) ≤ 0 → payback_simples_anos 20000 2500 = ⊤) ∧
    payback_simples_anos 20000 2500 = ((8 : ℚ) : WithTop ℚ) :=
  payback_simples_spec 20000 2500

/-- C9: the npv of the cash-flow series at discount rate zero is the plain
arithmetic sum of its 26 entries. -/
theorem vpl_taxa_zero_eq_soma (custo econ inflacao : ℚ) :
    vpl 0 (fluxo_caixa custo econ inflacao) = (fluxo_caixa custo econ inflacao).sum :=
  vpl_zero (fluxo_caixa custo econ inflacao)

/-- C5: the cash-flow series has 26 entries, entry 0 is the negated
installation cost, entry 1 is the initial net savings, and every later
entry is the previous one scaled by the inflation and degradation factor,
the degradation being fixed at 0.5 percent, with no clamping. -/
theorem fluxo_caixa_spec (custo econ inflacao : ℚ) (k : ℕ)
    (hk1 : 1 ≤ k) (hk2 : k ≤ 24) :
    (fluxo_caixa custo econ inflacao).length = 26 ∧
    (fluxo_caixa custo econ inflacao).getD 0 0 = -custo ∧
    (fluxo_caixa custo econ inflacao).getD 1 0 = econ ∧
    (fluxo_caixa custo econ inflacao).getD (k + 1) 0 =
      (fluxo_caixa custo econ inflacao).getD k 0 * ((1 + inflacao / 100) * (1 - 5 / 1000)) := by
  refine ⟨fluxo_caixa_length custo econ inflacao, rfl, ?_, ?_⟩
  · have h := fluxo_caixa_getD custo econ inflacao 1 (le_refl 1) (by norm_num)
    simpa using h
  · rw [fluxo_caixa_getD custo econ inflacao (k + 1) (by omega) (by omega),
      fluxo_caixa_getD custo econ inflacao k hk1 (by omega)]
    have h1 : k + 1 - 1 = (k - 1) + 1 := by omega
    rw [h1, pow_succ]
    unfold degradacao_paineis_anual
    ring

/-- Witness for C5 at the spec scenario with year index 3. -/
theorem fluxo_caixa_spec_witness :
    (fluxo_caixa 20000 2500 7).length = 26 ∧
    (fluxo_caixa 20000 2500 7).getD 0 0 = -20000 ∧
    (fluxo_caixa 20000 2500 7).getD 1 0 = 2500 ∧
    (fluxo_caixa 20000 2500 7).getD (3 + 1) 0 =
      (fluxo_caixa 20000 2500 7).getD 3 0 * ((1 + 7 / 100) * (1 - 5 / 1000)) :=
  fluxo_caixa_spec 20000 2500 7 3 (by norm_num) (by norm_num)

/-- C10: for nonnegative inflation the yearly multiplier is strictly
positive, so every savings entry of the cash-flow series, indices 1 to 25,
keeps the sign of the initial net annual savings. -/
theorem fluxo_caixa_sinal (custo econ inflacao : ℚ) (k : ℕ)
    (hi : 0 ≤ inflacao) (hk1 : 1 ≤ k) (hk2 : k ≤ 25) :
    0 < (1 + inflacao / 100) * (1 - degradacao_paineis_anual) ∧
    (0 < econ → 0 < (fluxo_caixa custo econ inflacao).getD k 0) ∧
    (econ < 0 → (fluxo_caixa custo econ inflacao).getD k 0 < 0) ∧
    (econ = 0 → (fluxo_caixa custo econ inflacao).getD k 0 = 0) := by
  have h1 : (0 : ℚ) ≤ inflacao / 100 := div_nonneg hi (by norm_num)
  have hf : 0 < (1 + inflacao / 100) * (1 - degradacao_paineis_anual) := by
    unfold degradacao_paineis_anual
    have h2 : (0 : ℚ) < 1 + inflacao / 100 := by linarith
    have h3 : (0 : ℚ) < 1 - 5 / 1000 := by norm_num
    exact mul_pos h2 h3
  have hpow : 0 < ((1 + inflacao / 100) * (1 - degradacao_paineis_anual)) ^ (k - 1) :=
    pow_pos hf (k - 1)
  have hE := fluxo_caixa_getD custo econ inflacao k hk1 hk2
  rw [hE]
  exact ⟨hf, fun h => mul_pos h hpow, fun h => mul_neg_of_neg_of_pos h hpow,
    fun h => by rw [h, zero_mul]⟩

/-- Witness for C10 at the last savings year. -/
theorem fluxo_caixa_sinal_witness :
    0 < (1 + (7 : ℚ) / 100) * (1 - degradacao_paineis_anual) ∧
    ((0 : ℚ) < 2500 → 0 < (fluxo_caixa 20000 2500 7).getD 25 0) ∧
    ((2500 : ℚ) < 0 → (fluxo_caixa 20000 2500 7).getD 25 0 < 0) ∧
    ((2500 : ℚ) = 0 → (fluxo_caixa 20000 2500 7).getD 25 0 = 0) :=
  fluxo_caixa_sinal 20000 2500 7 25 (by norm_num) (by norm_num) (le_refl 25)

/-- C1 (amended): the discounted payback index, when reported, has strictly
positive cumulative prefix npv while every earlier index has cumulative
prefix npv at most zero; when the scan reports nothing, every index within
the 26-entry horizon has cumulative prefix npv at most zero. -/
theorem payback_descontado_spec (taxa custo econ inflacao : ℚ) (t s : ℕ)
    (ht : t < 26) (hs : s < t) :
    (payback_descontado_ano taxa (fluxo_caixa custo econ inflacao) = some t →
      0 < vpl taxa ((fluxo_caixa custo econ inflacao).take (t + 1)) ∧
      vpl taxa ((fluxo_caixa custo econ inflacao).take (s + 1)) ≤ 0) ∧
    (payback_descontado_ano taxa (fluxo_caixa custo econ inflacao) = none →
      vpl taxa ((fluxo_caixa custo econ inflacao).take (t + 1)) ≤ 0) := by
  constructor
  · intro h
    unfold payback_descontado_ano at h
    have hspec := find?_range_spec _ _ t h
    refine ⟨of_decide_eq_true hspec.1, ?_⟩
    have hf := hspec.2 s hs
    exact not_lt.mp (of_decide_eq_false hf)
  · intro h
    unfold payback_descontado_ano at h
    rw [fluxo_caixa_length custo econ inflacao] at h
    have hf := find?_range_none _ 26 h t ht
    exact not_lt.mp (of_decide_eq_false hf)

/-- Witness for C1 with zero rate, cost 100, savings 100 and no inflation,
where the scan reports year 2. -/
theorem payback_descontado_spec_witness :
    (payback_descontado_ano 0 (fluxo_caixa 100 100 0) = some 2 →
      0 < vpl 0 ((fluxo_caixa 100 100 0).take (2 + 1)) ∧
      vpl 0 ((fluxo_caixa 100 100 0).take (1 + 1)) ≤ 0) ∧
    (payback_descontado_ano 0 (fluxo_caixa 100 100 0) = none →
      vpl 0 ((fluxo_caixa 100 100 0).take (2 + 1)) ≤ 0) :=
  payback_descontado_spec 0 100 100 0 2 1 (by norm_num) (by norm_num)

set_option maxHeartbeats 1600000 in
/-- C1 counterexample: with zero discount rate, installation cost 100,
initial savings 100 and zero inflation, the cumulative npv at year 1 is
already nonnegative, exactly zero, yet the scan reports year 2, because the
source tests for a strictly positive cumulative value, not a nonnegative
one. -/
theorem payback_descontado_claim_cex :
    payback_descontado_ano 0 (fluxo_caixa 100 100 0) = some 2 ∧
    0 ≤ vpl 0 ((fluxo_caixa 100 100 0).take (1 + 1)) ∧
    (1 : ℕ) < 2 := by
  refine ⟨?_, ?_, by norm_num⟩
  · have hlen := fluxo_caixa_length 100 100 0
    unfold payback_descontado_ano
    rw [hlen]
    norm_num [fluxo_caixa, fluxo_caixa_loop, degradacao_paineis_anual, vpl,
      List.range_succ, List.take, List.enum, List.enumFrom]
  · norm_num [fluxo_caixa, fluxo_caixa_loop, degradacao_paineis_anual, vpl,
      List.take, List.enum, List.enumFrom]

/-- C2 (amended): with a nonpositive worst-month factor the sizing returns
zero and no failure interrupts the pipeline: the cost, generation, savings
and cash-flow computations still run, giving a zero installation cost, a
net savings equal to the negated annual availability charge, and a full
26-entry cash-flow series. -/
theorem degenerado_fluxo_completo (em : List ℚ) (consumo margem tarifa cm cb inflacao : ℚ)
    (tipo : TipoConexao) (h : pior_mes_geracao_por_kwp em ≤ 0) :
    tamanho_sistema_kwp em consumo margem = 0 ∧
    custo_estimado_sistema (tamanho_sistema_kwp em consumo margem) cm cb = 0 ∧
    geracao_anual_estimada em consumo margem = 0 ∧
    economia_anual_liquida (geracao_anual_estimada em consumo margem) tarifa tipo
      = -(custo_disponibilidade_mensal tipo tarifa * 12) ∧
    (fluxo_caixa (custo_estimado_sistema (tamanho_sistema_kwp em consumo margem) cm cb)
      (economia_anual_liquida (geracao_anual_estimada em consumo margem) tarifa tipo)
      inflacao).length = 26 := by
  have h0 : tamanho_sistema_kwp em consumo margem = 0 := by
    unfold tamanho_sistema_kwp
    exact if_neg (not_lt.mpr h)
  have hg : geracao_anual_estimada em consumo margem = 0 := by
    unfold geracao_anual_estimada
    rw [h0, mul_zero]
  refine ⟨h0, ?_, hg, ?_, fluxo_caixa_length _ _ _⟩
  · rw [h0]
    unfold custo_estimado_sistema custo_total_watt_pico
    ring
  · rw [hg]
    unfold economia_anual_liquida economia_anual_bruta
    ring

/-- Witness for C2 on the degenerate all-zero profile. -/
theorem degenerado_fluxo_completo_witness :
    tamanho_sistema_kwp perfil_degenerado 350 15 = 0 ∧
    custo_estimado_sistema (tamanho_sistema_kwp perfil_degenerado 350 15) (12 / 10) (16 / 10) = 0 ∧
    geracao_anual_estimada perfil_degenerado 350 15 = 0 ∧
    economia_anual_liquida (geracao_anual_estimada perfil_degenerado 350 15) (95 / 100) Trifasico
      = -(custo_disponibilidade_mensal Trifasico (95 / 100) * 12) ∧
    (fluxo_caixa
      (custo_estimado_sistema (tamanho_sistema_kwp perfil_degenerado 350 15) (12 / 10) (16 / 10))
      (economia_anual_liquida (geracao_anual_estimada perfil_degenerado 350 15) (95 / 100) Trifasico)
      7).length = 26 :=
  degenerado_fluxo_completo perfil_degenerado 350 15 (95 / 100) (12 / 10) (16 / 10) 7 Trifasico
    (by norm_num [pior_mes_geracao_por_kwp, perfil_degenerado])

/-- C2 counterexample: on a profile whose worst-month factor is zero no
named failure is surfaced; the sizing yields zero and the cost, savings,
simple payback and cash-flow computations all still produce downstream
values, so results are produced in the degenerate case. -/
theorem degenerado_produz_resultados :
    pior_mes_geracao_por_kwp perfil_degenerado ≤ 0 ∧
    tamanho_sistema_kwp perfil_degenerado 350 15 = 0 ∧
    custo_estimado_sistema (tamanho_sistema_kwp perfil_degenerado 350 15) (12 / 10) (16 / 10) = 0 ∧
    economia_anual_liquida (geracao_anual_estimada perfil_degenerado 350 15) (95 / 100) Trifasico
      = -1140 ∧
    payback_simples_anos
      (custo_estimado_sistema (tamanho_sistema_kwp perfil_degenerado 350 15) (12 / 10) (16 / 10))
      (economia_anual_liquida (geracao_anual_estimada perfil_degenerado 350 15) (95 / 100) Trifasico)
      = ⊤ ∧
    (fluxo_caixa
      (custo_estimado_sistema (tamanho_sistema_kwp perfil_degenerado 350 15) (12 / 10) (16 / 10))
      (economia_anual_liquida (geracao_anual_estimada perfil_degenerado 350 15) (95 / 100) Trifasico)
      7).length = 26 := by
  have hpior : pior_mes_geracao_por_kwp perfil_degenerado ≤ 0 := by
    norm_num [pior_mes_geracao_por_kwp, perfil_degenerado]
  have h0 : tamanho_sistema_kwp perfil_degenerado 350 15 = 0 := by
    unfold tamanho_sistema_kwp
    exact if_neg (not_lt.mpr hpior)
  have hg : geracao_anual_estimada perfil_degenerado 350 15 = 0 := by
    unfold geracao_anual_estimada
    rw [h0, mul_zero]
  have hcusto : custo_estimado_sistema (tamanho_sistema_kwp perfil_degenerado 350 15)
      (12 / 10) (16 / 10) = 0 := by
    rw [h0]
    unfold custo_estimado_sistema custo_total_watt_pico
    ring
  have hecon : economia_anual_liquida (geracao_anual_estimada perfil_degenerado 350 15)
      (95 / 100) Trifasico = -1140 := by
    rw [hg]
    norm_num [economia_anual_liquida, economia_anual_bruta, custo_disponibilidade_mensal,
      mapa_disponibilidade]
  refine ⟨hpior, h0, hcusto, hecon, ?_, fluxo_caixa_length _ _ _⟩
  rw [hcusto, hecon]
  norm_num [payback_simples_anos]
